import Mathlib

/-!
Verification of the riptide agent connection and dispatch engine.

The definitions below are a shallow embedding of the Rust sources:
`riptide_agent/src/main.rs`, `riptide_database/src/lib.rs`,
`riptide_database/src/models.rs` and `riptide_config/src/lib.rs`.
Machine integers (i64, u32, u64) are modelled as `Int`/`Nat` with explicit
wrapping where the source casts; fallible operations return `Except`;
external effects (database connection, filesystem, HTTP, websocket
transport) are passed in as explicit parameters or event traces.
-/

namespace Riptide

/-- `Share` record, from `riptide_database/src/models.rs`.  All six columns
of the `shares` table; the integer columns are Rust `i64`, modelled as `Int`. -/
structure Share where
  file_id : Int
  exp : Int
  crt : Int
  file_size : Int
  user_name : String
  file_name : String
deriving DecidableEq, Repr

/-- The error kinds of the external `ws_com_framework` crate that the agent
uses (`ErrorKind::FileDoesntExist` is the only one it ever sends). -/
inductive ErrorKind where
  | FileDoesntExist
  | Unknown
deriving DecidableEq, Repr

/-- Protocol messages of the external `ws_com_framework` crate, restricted to
the variants the agent constructs or matches on (`handle_message` in
`riptide_agent/src/main.rs`).  `u32`/`u64` wire fields are modelled as `Nat`,
the `Vec<u8>` passcode as `List Nat`. -/
inductive Message where
  | UploadTo (file_id : Nat) (upload_url : String)
  | MetadataReq (file_id : Nat) (upload_id : Nat)
  | MetadataRes (file_id : Nat) (exp : Nat) (crt : Nat) (file_size : Nat)
      (username : String) (file_name : String) (upload_id : Nat)
  | AuthReq (public_id : Nat)
  | AuthRes (public_id : Nat) (passcode : List Nat)
  | StatusReq (public_id : Nat) (upload_id : Nat)
  | StatusRes (public_id : Nat) (ready : Bool) (uptime : Nat) (upload_id : Nat)
      (message : Option String)
  | Ok
  | Error (kind : ErrorKind) (reason : Option String)
deriving DecidableEq, Repr

/-- `AgentError` from `riptide_agent/src/error.rs`; the payloads of the Rust
variants are external error values with no structure of interest here,
modelled as strings. -/
inductive AgentError where
  | ReadFile (msg : String)
  | Http (msg : String)
  | JoinFailure (msg : String)
  | TokioError (msg : String)
  | FrameworkError (msg : String)
  | BadFrame (msg : String)
  | Other (msg : String)
deriving DecidableEq, Repr

/-- `Config` from `riptide_config/src/lib.rs` (the fields the agent reads;
`PathBuf` is modelled as `String`). -/
structure Config where
  public_id : Option Nat
  private_key : Option (List Nat)
  websocket_address : String
  server_address : String
  file_store_location : String
  database_location : String
  max_upload_attempts : Nat
  size_limit_bytes : Nat
  reconnect_delay_minutes : Nat
deriving DecidableEq, Repr

/-- Rust `as u32` cast from `i64`: truncation to 32 bits. -/
def toU32 (i : Int) : Nat := (i % (2 : Int) ^ 32).toNat

/-- Rust `as u64` cast from `i64`: reinterpretation modulo 2^64. -/
def toU64 (i : Int) : Nat := (i % (2 : Int) ^ 64).toNat

/-- `get_share_by_id` from `riptide_database/src/lib.rs` (lines 80-94): filter
the `shares` table rows by `file_id == search_id as i64`; if the result list
is empty return `None`, otherwise remove and return index 0. -/
def get_share_by_id (shares : List Share) (search_id : Nat) : Option Share :=
  match shares.filter (fun s => s.file_id == (search_id : Int)) with
  | [] => none
  | f :: _ => some f

/-- Rust `str::split(sep)` on a list of characters: splits at every
occurrence of `sep`, keeping empty segments, and yields at least one
(possibly empty) segment.  Embeds the `upload_url.split('/')` call in
`handle_message` (`riptide_agent/src/main.rs` line 109). -/
def splitChar (sep : Char) : List Char → List (List Char)
  | [] => [[]]
  | c :: cs =>
    if c = sep then
      [] :: splitChar sep cs
    else
      match splitChar sep cs with
      | [] => [[c]]
      | g :: gs => (c :: g) :: gs

/-- The substring after the last occurrence of `sep` (the whole string when
`sep` does not occur): the longest suffix free of `sep`. -/
def lastSeg (sep : Char) (l : List Char) : List Char :=
  (l.reverse.takeWhile (fun c => c != sep)).reverse

/-- Observable side effects of one `handle_message` invocation: the share
store lookups issued (by file id) and the Upload Executor invocations
(share record and destination URL). -/
structure Effects where
  queries : List Nat
  uploads : List (Share × String)
deriving DecidableEq, Repr

/-- No side effects. -/
def noEffects : Effects := ⟨[], []⟩

deriving instance DecidableEq for Except

/-- Outcome of a handler invocation: either a Rust panic (an `unwrap` or
`expect` firing) or the `Result<Option<Message>, AgentError>` return value. -/
inductive HandlerOutcome where
  | panicked
  | result (r : Except AgentError (Option Message))
deriving DecidableEq, Repr

/-- `handle_message` from `riptide_agent/src/main.rs` (lines 85-174).
`db` is the outcome of `establish_connection` plus the table contents: the
`spawn_blocking` lookup of the two database branches either fails
(`.error`, covering connection and query errors joined by `??`) or yields
the share table to filter.  The Upload Executor call in the `UploadTo`
branch is recorded as an effect (its internal retry loop is modelled
separately as `upload_file_loop`). -/
def handle_message (db : Except AgentError (List Share)) (config : Config)
    (m : Message) : HandlerOutcome × Effects :=
  match m with
  | .UploadTo file_id upload_url =>
    match db with
    | .error e => (.result (.error e), ⟨[file_id], []⟩)
    | .ok shares =>
      match get_share_by_id shares file_id with
      | some f => (.result (.ok none), ⟨[file_id], [(f, upload_url)]⟩)
      | none =>
        match (splitChar '/' upload_url.data).getLast? with
        | none => (.panicked, ⟨[file_id], []⟩)
        | some seg =>
          (.result (.ok (some (.Error .FileDoesntExist (some (String.mk seg))))),
            ⟨[file_id], []⟩)
  | .MetadataReq file_id upload_id =>
    match db with
    | .error e => (.result (.error e), ⟨[file_id], []⟩)
    | .ok shares =>
      match get_share_by_id shares file_id with
      | some f =>
        (.result (.ok (some (.MetadataRes (toU32 f.file_id) (toU64 f.exp)
          (toU64 f.crt) (toU64 f.file_size) f.user_name f.file_name upload_id))),
          ⟨[file_id], []⟩)
      | none =>
        (.result (.ok (some (.Error .FileDoesntExist none))), ⟨[file_id], []⟩)
  | .AuthReq public_id =>
    match config.private_key with
    | none => (.panicked, noEffects)
    | some key => (.result (.ok (some (.AuthRes public_id key))), noEffects)
  | .StatusReq _ upload_id =>
    match config.public_id with
    | none => (.panicked, noEffects)
    | some pid =>
      (.result (.ok (some (.StatusRes pid true 0 upload_id
        (some "Ready to upload")))), noEffects)
  | .Ok => (.result (.ok none), noEffects)
  | .Error _ _ => (.result (.ok none), noEffects)
  | _ => (.result (.ok none), noEffects)

/-- Outcome of one attempt of the `upload_file` loop body
(`riptide_agent/src/main.rs` lines 56-80): `openPanic` is the
`fs::File::open(..).expect(..)` firing; `joined httpOk` is
`spawn_blocking(.. ureq::post ..).await` returning `Ok(res)` where `httpOk`
records whether the inner ureq result `res` was `Ok`; `joinFailed` is the
`.await` returning a `JoinError`. -/
inductive AttemptOutcome where
  | openPanic
  | joined (httpOk : Bool)
  | joinFailed
deriving DecidableEq, Repr

/-- Result of running the `upload_file` loop: a panic, or termination after
`attempts` iterations with `gaveUp` recording whether the
`error!("Failed to upload file to endpoint", ..)` give-up branch ran. -/
inductive UploadResult where
  | panicked
  | finished (attempts : Nat) (gaveUp : Bool)
deriving DecidableEq, Repr

/-- The retry loop of `upload_file` (`riptide_agent/src/main.rs` lines 55-81),
started with attempt counter `a = 0`.  Faithful to the source `match res`:
`Ok(_)` (any completed `spawn_blocking`, regardless of the inner ureq
result) breaks the loop; `Err(_)` (a join failure) increments `a` and gives
up once `a >= max_upload_attempts`. -/
def upload_file_loop (maxAttempts : Nat) (attempt : Nat → AttemptOutcome)
    (a : Nat) : UploadResult :=
  match attempt a with
  | .openPanic => .panicked
  | .joined _ => .finished (a + 1) false
  | .joinFailed =>
    if _h : a + 1 ≥ maxAttempts then .finished (a + 1) true
    else upload_file_loop maxAttempts attempt (a + 1)
termination_by maxAttempts - a
decreasing_by omega

/-- The database half of the expiry sweep, `remove_expired_shares` in
`riptide_database/src/lib.rs` (lines 129-144): the diesel statement
`delete(shares.filter(exp.lt(now))).returning(all_columns)` on a table of
rows, producing the deleted rows (first component) and the rows left in the
table (second component). -/
def remove_expired_shares_db (now : Int) (table : List Share) :
    List Share × List Share :=
  (table.filter (fun s => decide (s.exp < now)),
   table.filter (fun s => !(decide (s.exp < now))))

/-- The file-deletion loop of the agent-side `remove_expired_shares`
(`riptide_agent/src/main.rs` lines 291-294): for each deleted share, remove
the file `file_store_location.join(share.file_id.to_string())`; the `?` on
`remove_file` aborts the whole function on the first filesystem error.
Returns the paths removed (in order) and the overall result. -/
def delete_share_files (removeFile : String → Except AgentError Unit)
    (root : String) : List Share → List String × Except AgentError Unit
  | [] => ([], .ok ())
  | s :: rest =>
    match removeFile (root ++ "/" ++ toString s.file_id) with
    | .error e => ([], .error e)
    | .ok _ =>
      let r := delete_share_files removeFile root rest
      ((root ++ "/" ++ toString s.file_id) :: r.1, r.2)

/-- The agent-side `remove_expired_shares` (`riptide_agent/src/main.rs`
lines 281-297) for one sweep tick taken at time `now`: ask the store to
select-and-delete the expired shares, then delete each backing file.
Returns the rows remaining in the store, the file paths removed, and the
overall result. -/
def agent_remove_expired_shares (removeFile : String → Except AgentError Unit)
    (file_store_location : String) (now : Int) (table : List Share) :
    List Share × List String × Except AgentError Unit :=
  let db := remove_expired_shares_db now table
  (db.2, delete_share_files removeFile file_store_location db.1)

/-- `MIN_RECONNECT_DELAY` from `riptide_agent/src/main.rs` line 49. -/
def MIN_RECONNECT_DELAY : Nat := 5000

/-- Outcome of one connect attempt of the Connection Supervisor `run`
(`riptide_agent/src/main.rs` lines 307-328): the
`connect_async_tls_with_config` call failed, or a session ran to completion
returning `r`. -/
inductive ConnectOutcome where
  | connectFailed (e : String)
  | sessionEnded (r : Except AgentError Bool)
deriving DecidableEq, Repr

/-- The sleep issued at the bottom of the `run` loop
(`riptide_agent/src/main.rs` lines 330-334):
`Duration::from_secs(max(reconnect_delay * 60, MIN_RECONNECT_DELAY as u64))`,
with the `u64` multiplication wrapping modulo 2^64. -/
def supervisor_sleep_secs (reconnect_delay_minutes : Nat) : Nat :=
  max (reconnect_delay_minutes * 60 % 2 ^ 64) MIN_RECONNECT_DELAY

/-- One iteration of the `run` loop (`riptide_agent/src/main.rs` lines
307-335): whatever the connect attempt produced (both match arms only log),
fall through to the sleep; the value is the seconds slept before the next
connect attempt. -/
def supervisor_iteration_sleep (o : ConnectOutcome)
    (reconnect_delay_minutes : Nat) : Nat :=
  match o with
  | .connectFailed _ => supervisor_sleep_secs reconnect_delay_minutes
  | .sessionEnded _ => supervisor_sleep_secs reconnect_delay_minutes

/-- State of the `handle_ws` event loop (`riptide_agent/src/main.rs` lines
180-269): the `res` variable, the contents of the bounded mpsc response
channel (handler results not yet drained), the messages for which a handler
task was spawned (the `handles` vector), and the frames written out. -/
structure WsState where
  res : Except AgentError Bool
  chan : List (Except AgentError (Option Message))
  spawned : List Message
  outbound : List Message
deriving DecidableEq, Repr

/-- Initial state of `handle_ws`: `res = Ok(false)` (line 185), empty
channel, no handles, nothing written. -/
def initWsState : WsState := ⟨.ok false, [], [], []⟩

/-- One inbound event as seen by `websocket.next().await`
(`riptide_agent/src/main.rs` lines 217-268): a binary frame together with
the outcome of its `try_into` decode, a ping with its payload, a pong, a
text frame, a close frame, a raw frame, or a transport read error.
End-of-stream (`None`) is represented by the end of the event trace. -/
inductive WsEvent where
  | binary (decoded : Except AgentError Message)
  | ping (payload : List Nat)
  | pong
  | text (msg : String)
  | close
  | rawFrame
  | readErr (e : AgentError)
deriving DecidableEq, Repr

/-- Input to one iteration of the `handle_ws` loop: the handler results that
arrived on the response channel since the previous iteration, and the event
the `next().await` read produced. -/
structure IterInput where
  arrivals : List (Except AgentError (Option Message))
  event : WsEvent
deriving DecidableEq, Repr

/-- Whether an iteration of the `handle_ws` loop hit an outer `break`
(ending the session) or fell through to the next iteration. -/
inductive LoopOutcome where
  | exited (s : WsState)
  | continued (s : WsState)
deriving DecidableEq, Repr

/-- The drain loop `while let Ok(m) = rx.try_recv()` of `handle_ws`
(`riptide_agent/src/main.rs` lines 188-214), parameterised by the codec
`encodeF` (`msg.try_into()`) and the transport send `sendF`.  A handler
error, an encode error or a send error sets `res` and breaks the inner
`while` only, leaving the rest of the channel for later drains; `Ok(None)`
results are skipped; successfully sent messages are appended to the
outbound list.  Returns the channel remainder, `res` and the outbound list. -/
def drainChan (encodeF : Message → Except AgentError (List Nat))
    (sendF : List Nat → Except AgentError Unit) :
    List (Except AgentError (Option Message)) → Except AgentError Bool →
      List Message →
      List (Except AgentError (Option Message)) × Except AgentError Bool ×
        List Message
  | [], res, outbound => ([], res, outbound)
  | item :: rest, res, outbound =>
    match item with
    | .ok (some msg) =>
      match encodeF msg with
      | .error e => (rest, .error e, outbound)
      | .ok bin =>
        match sendF bin with
        | .error e => (rest, .error e, outbound)
        | .ok _ => drainChan encodeF sendF rest res (outbound ++ [msg])
    | .ok none => drainChan encodeF sendF rest res outbound
    | .error e => (rest, .error e, outbound)

/-- One iteration of the `handle_ws` loop (`riptide_agent/src/main.rs` lines
186-269): drain the response channel, then act on the next inbound event.
A successfully decoded binary frame spawns a handler task (recorded in
`spawned`); a decode failure, a ping whose pong send fails, a raw frame and
a read error set `res` and break the outer loop (`exited`); pong and text
frames only log; a close frame sets `res = Ok(false)` and does not break. -/
def runIter (encodeF : Message → Except AgentError (List Nat))
    (sendF : List Nat → Except AgentError Unit) (s : WsState)
    (it : IterInput) : LoopOutcome :=
  let d := drainChan encodeF sendF (s.chan ++ it.arrivals) s.res s.outbound
  let s1 : WsState := ⟨d.2.1, d.1, s.spawned, d.2.2⟩
  match it.event with
  | .binary (.ok m) => .continued ⟨s1.res, s1.chan, s1.spawned ++ [m], s1.outbound⟩
  | .binary (.error e) => .exited ⟨.error e, s1.chan, s1.spawned, s1.outbound⟩
  | .ping payload =>
    match sendF payload with
    | .ok _ => .continued s1
    | .error e => .exited ⟨.error e, s1.chan, s1.spawned, s1.outbound⟩
  | .pong => .continued s1
  | .text _ => .continued s1
  | .close => .continued ⟨.ok false, s1.chan, s1.spawned, s1.outbound⟩
  | .rawFrame =>
    .exited ⟨.error (.BadFrame "got raw frame"), s1.chan, s1.spawned, s1.outbound⟩
  | .readErr e => .exited ⟨.error e, s1.chan, s1.spawned, s1.outbound⟩

/-- The `handle_ws` loop over a trace of iteration inputs: runs until an
outer `break` or until the trace is exhausted (the next read would return
`None`). -/
def runLoop (encodeF : Message → Except AgentError (List Nat))
    (sendF : List Nat → Except AgentError Unit) (s : WsState) :
    List IterInput → LoopOutcome
  | [] => .continued s
  | it :: rest =>
    match runIter encodeF sendF s it with
    | .exited s1 => .exited s1
    | .continued s1 => runLoop encodeF sendF s1 rest

/-- Final observable outcome of `handle_ws`: the returned
`Result<bool, AgentError>`, the spawned handler tasks, the tasks that were
aborted by the `for h in handles .. h.abort()` epilogue, the frames written,
and whether `close` was called on the websocket. -/
structure WsFinal where
  res : Except AgentError Bool
  spawned : List Message
  aborted : List Message
  outbound : List Message
  closed : Bool
deriving DecidableEq, Repr

/-- The epilogue of `handle_ws` (`riptide_agent/src/main.rs` lines 271-277):
abort every handle in the `handles` vector, then close the websocket, then
return `res`. -/
def finishSession (s : WsState) : WsFinal :=
  ⟨s.res, s.spawned, s.spawned, s.outbound, true⟩

/-- `handle_ws` (`riptide_agent/src/main.rs` lines 176-278) over an explicit
trace, resumed from state `s`: run the loop on `inputs`; if the loop fell
through to the `None` read, the final iteration first drains the channel
(with `finalArrivals` the results that arrived last); every path then runs
the abort-and-close epilogue. -/
def handle_ws_from (encodeF : Message → Except AgentError (List Nat))
    (sendF : List Nat → Except AgentError Unit) (s : WsState)
    (inputs : List IterInput)
    (finalArrivals : List (Except AgentError (Option Message))) : WsFinal :=
  match runLoop encodeF sendF s inputs with
  | .exited s1 => finishSession s1
  | .continued s1 =>
    let d := drainChan encodeF sendF (s1.chan ++ finalArrivals) s1.res s1.outbound
    finishSession ⟨d.2.1, d.1, s1.spawned, d.2.2⟩

/-- `handle_ws` started in its initial state. -/
def handle_ws (encodeF : Message → Except AgentError (List Nat))
    (sendF : List Nat → Except AgentError Unit) (inputs : List IterInput)
    (finalArrivals : List (Except AgentError (Option Message))) : WsFinal :=
  handle_ws_from encodeF sendF initWsState inputs finalArrivals

/-- A channel content that drains without tripping any inner `break`: it
holds no handler errors, and every reply it holds encodes and sends
successfully. -/
def DrainClean (encodeF : Message → Except AgentError (List Nat))
    (sendF : List Nat → Except AgentError Unit)
    (items : List (Except AgentError (Option Message))) : Prop :=
  ∀ x ∈ items, (∀ e, x ≠ .error e) ∧
    ∀ msg, x = .ok (some msg) → ∃ bin, encodeF msg = .ok bin ∧ sendF bin = .ok ()

/-- A concrete registered configuration, used to instantiate witnesses. -/
def sampleConfig : Config :=
  ⟨some 9, some [3, 1, 4], "wss://api", "https://api", "/var/files",
    "/var/db.sqlite", 3, 1000, 1⟩

/-! ## Helper lemmas -/

theorem takeWhile_append_singleton_false (p : Char → Bool) (l : List Char)
    (x : Char) (hx : p x = false) :
    (l ++ [x]).takeWhile p = l.takeWhile p := by
  induction l with
  | nil => simp [List.takeWhile, hx]
  | cons c cs ih =>
    cases hc : p c <;> simp [List.takeWhile_cons, hc, ih]

theorem takeWhile_append_stop (p : Char → Bool) (l l' : List Char)
    (h : ∃ x ∈ l, p x = false) : (l ++ l').takeWhile p = l.takeWhile p := by
  induction l with
  | nil => simp at h
  | cons c cs ih =>
    cases hc : p c with
    | false => simp [List.takeWhile_cons, hc]
    | true =>
      obtain ⟨x, hxl, hxp⟩ := h
      rcases List.mem_cons.mp hxl with he | hmem
      · subst he; rw [hc] at hxp; exact absurd hxp (by simp)
      · simp [List.takeWhile_cons, hc, ih ⟨x, hmem, hxp⟩]

theorem lastSeg_nil (sep : Char) : lastSeg sep [] = [] := rfl

theorem lastSeg_cons_sep (sep : Char) (cs : List Char) :
    lastSeg sep (sep :: cs) = lastSeg sep cs := by
  unfold lastSeg
  rw [List.reverse_cons, takeWhile_append_singleton_false _ _ _ (by simp)]

theorem lastSeg_of_not_mem (sep : Char) (l : List Char) (h : sep ∉ l) :
    lastSeg sep l = l := by
  unfold lastSeg
  rw [List.takeWhile_eq_self_iff.mpr, List.reverse_reverse]
  intro x hx
  simp only [bne_iff_ne, ne_eq]
  intro hxe
  exact h (by rw [← hxe]; exact (List.mem_reverse).mp hx)

theorem lastSeg_cons_of_mem (sep c : Char) (cs : List Char) (h : sep ∈ cs) :
    lastSeg sep (c :: cs) = lastSeg sep cs := by
  unfold lastSeg
  rw [List.reverse_cons, takeWhile_append_stop]
  exact ⟨sep, (List.mem_reverse).mpr h, by simp⟩

theorem splitChar_ne_nil (sep : Char) (l : List Char) : splitChar sep l ≠ [] := by
  induction l with
  | nil => simp [splitChar]
  | cons c cs ih =>
    by_cases hc : c = sep
    · simp [splitChar, hc]
    · simp only [splitChar, if_neg hc]
      cases h : splitChar sep cs <;> simp

theorem splitChar_of_not_mem (sep : Char) (l : List Char) (h : sep ∉ l) :
    splitChar sep l = [l] := by
  induction l with
  | nil => rfl
  | cons c cs ih =>
    have hc : ¬ c = sep := fun he => h (by rw [he]; exact List.mem_cons_self _ _)
    have hcs : sep ∉ cs := fun hm => h (List.mem_cons_of_mem _ hm)
    simp only [splitChar, if_neg hc, ih hcs]

theorem splitChar_length (sep : Char) (l : List Char) :
    (splitChar sep l).length = l.countP (fun c => c == sep) + 1 := by
  induction l with
  | nil => simp [splitChar]
  | cons c cs ih =>
    by_cases hc : c = sep
    · simp only [splitChar, if_pos hc, List.length_cons, ih, List.countP_cons,
        hc, beq_self_eq_true, if_pos]
    · simp only [splitChar, if_neg hc]
      cases h : splitChar sep cs with
      | nil => exact absurd h (splitChar_ne_nil sep cs)
      | cons g gs =>
        rw [h] at ih
        simp only [List.length_cons] at ih
        simp only [List.length_cons, List.countP_cons]
        have : (c == sep) = false := by simp [hc]
        rw [this]
        simpa using ih

theorem splitChar_getLast (sep : Char) (l : List Char) :
    (splitChar sep l).getLast? = some (lastSeg sep l) := by
  induction l with
  | nil => rfl
  | cons c cs ih =>
    by_cases hc : c = sep
    · subst hc
      rw [lastSeg_cons_sep]
      have hsp : splitChar c (c :: cs) = [] :: splitChar c cs := by
        simp [splitChar]
      rw [hsp]
      cases h : splitChar c cs with
      | nil => exact absurd h (splitChar_ne_nil c cs)
      | cons g gs => rw [List.getLast?_cons_cons, ← h, ih]
    · by_cases hm : sep ∈ cs
      · have hlen : 2 ≤ (splitChar sep cs).length := by
          rw [splitChar_length]
          have : 0 < cs.countP (fun c => c == sep) :=
            List.countP_pos_iff.mpr ⟨sep, hm, by simp⟩
          omega
        cases h : splitChar sep cs with
        | nil => exact absurd h (splitChar_ne_nil sep cs)
        | cons g gs =>
          cases gs with
          | nil => rw [h] at hlen; simp at hlen
          | cons g2 gs2 =>
            simp only [splitChar, if_neg hc, h]
            rw [List.getLast?_cons_cons, lastSeg_cons_of_mem sep c cs hm, ← ih, h,
              List.getLast?_cons_cons]
      · have hncl : sep ∉ c :: cs := by
          intro hmem
          rcases List.mem_cons.mp hmem with he | hm2
          · exact hc he.symm
          · exact hm hm2
        rw [splitChar_of_not_mem sep (c :: cs) hncl,
          lastSeg_of_not_mem sep (c :: cs) hncl]
        rfl

theorem get_share_by_id_file_id (shares : List Share) (fid : Nat) (f : Share)
    (h : get_share_by_id shares fid = some f) : f.file_id = (fid : Int) := by
  unfold get_share_by_id at h
  cases hf : shares.filter (fun s => s.file_id == (fid : Int)) with
  | nil => rw [hf] at h; cases h
  | cons g gs =>
    rw [hf] at h
    cases h
    have hmem : f ∈ shares.filter (fun s => s.file_id == (fid : Int)) := by
      rw [hf]; exact List.mem_cons_self _ _
    have hp := (List.mem_filter.mp hmem).2
    simpa using hp

theorem delete_share_files_all_ok (removeFile : String → Except AgentError Unit)
    (root : String) (l : List Share) (hfs : ∀ p, removeFile p = .ok ()) :
    delete_share_files removeFile root l =
      (l.map (fun s => root ++ "/" ++ toString s.file_id), .ok ()) := by
  induction l with
  | nil => rfl
  | cons s rest ih => simp [delete_share_files, hfs, ih]

theorem drainChan_clean (encodeF : Message → Except AgentError (List Nat))
    (sendF : List Nat → Except AgentError Unit)
    (items : List (Except AgentError (Option Message)))
    (h : DrainClean encodeF sendF items) :
    ∀ res outbound, ∃ out2,
      drainChan encodeF sendF items res outbound = ([], res, out2) := by
  induction items with
  | nil => exact fun res outbound => ⟨outbound, rfl⟩
  | cons item rest ih =>
    intro res outbound
    have hitem := h item (List.mem_cons_self _ _)
    have hrest : DrainClean encodeF sendF rest :=
      fun x hx => h x (List.mem_cons_of_mem _ hx)
    match item with
    | .error e => exact absurd rfl (hitem.1 e)
    | .ok none =>
      obtain ⟨out2, h2⟩ := ih hrest res outbound
      exact ⟨out2, by simpa [drainChan] using h2⟩
    | .ok (some msg) =>
      obtain ⟨bin, henc, hsend⟩ := hitem.2 msg rfl
      obtain ⟨out2, h2⟩ := ih hrest res (outbound ++ [msg])
      exact ⟨out2, by simp [drainChan, henc, hsend, h2]⟩

/-! ## Claim theorems -/

/-- C4: after every Connection Supervisor iteration, whether the connect
attempt failed or a session ran and ended, the supervisor sleeps for
`max(configured reconnect delay in seconds, MIN_RECONNECT_DELAY)` before the
next attempt, so the next attempt occurs no sooner than that maximum. -/
theorem supervisor_backoff_max (o : ConnectOutcome) (d : Nat)
    (h : d * 60 < 2 ^ 64) :
    supervisor_iteration_sleep o d = max (d * 60) MIN_RECONNECT_DELAY ∧
    d * 60 ≤ supervisor_iteration_sleep o d ∧
    MIN_RECONNECT_DELAY ≤ supervisor_iteration_sleep o d := by
  have h2 : d * 60 < 18446744073709551616 := by norm_num at h; exact h
  have hmod : d * 60 % 18446744073709551616 = d * 60 := Nat.mod_eq_of_lt h2
  have hs : supervisor_iteration_sleep o d = max (d * 60) MIN_RECONNECT_DELAY := by
    cases o <;>
      simp [supervisor_iteration_sleep, supervisor_sleep_secs, hmod]
  refine ⟨hs, ?_, ?_⟩
  · rw [hs]; exact Nat.le_max_left _ _
  · rw [hs]; exact Nat.le_max_right _ _

/-- Witness for C4 at a failed connect with a 1-minute configured delay. -/
theorem supervisor_backoff_max_witness :
    supervisor_iteration_sleep (.connectFailed "connection refused") 1 =
      max (1 * 60) MIN_RECONNECT_DELAY ∧
    1 * 60 ≤ supervisor_iteration_sleep (.connectFailed "connection refused") 1 ∧
    MIN_RECONNECT_DELAY ≤
      supervisor_iteration_sleep (.connectFailed "connection refused") 1 :=
  supervisor_backoff_max (.connectFailed "connection refused") 1 (by norm_num)

/-- C7: for every `AuthReq` message, provided the loaded config is registered
(`private_key` is `Some key`), the handler unconditionally replies
`AuthRes` echoing the request public id with `passcode = key`, with no
share store access and no upload invocation, independent of the share
store state `db`. -/
theorem auth_req_echoes_private_key (db : Except AgentError (List Share))
    (config : Config) (pid : Nat) (key : List Nat)
    (h : config.private_key = some key) :
    handle_message db config (.AuthReq pid) =
      (.result (.ok (some (.AuthRes pid key))), noEffects) := by
  simp [handle_message, h]

/-- Witness for C7 on a concrete registered config. -/
theorem auth_req_echoes_private_key_witness :
    handle_message (.ok [])
      (⟨some 9, some [3, 1, 4], "wss://api", "https://api", "/var/files",
        "/var/db.sqlite", 3, 1000, 1⟩ : Config) (.AuthReq 42) =
      (.result (.ok (some (.AuthRes 42 [3, 1, 4]))), noEffects) :=
  auth_req_echoes_private_key (.ok [])
    ⟨some 9, some [3, 1, 4], "wss://api", "https://api", "/var/files",
      "/var/db.sqlite", 3, 1000, 1⟩ 42 [3, 1, 4] rfl

/-- C8: on every exit path of the Session Dispatcher (any event trace, any
channel contents), the epilogue aborts every handler task that was spawned
during the session and closes the connection. -/
theorem session_exit_aborts_all_tasks
    (encodeF : Message → Except AgentError (List Nat))
    (sendF : List Nat → Except AgentError Unit) (inputs : List IterInput)
    (finalArrivals : List (Except AgentError (Option Message))) :
    (handle_ws encodeF sendF inputs finalArrivals).aborted =
      (handle_ws encodeF sendF inputs finalArrivals).spawned ∧
    (handle_ws encodeF sendF inputs finalArrivals).closed = true := by
  unfold handle_ws handle_ws_from
  rcases hr : runLoop encodeF sendF initWsState inputs with s1 | s1 <;>
    simp [finishSession]

/-- C5: an `UploadTo` whose `file_id` is not in the share store yields an
`Error` reply of kind `FileDoesntExist` and invokes no upload (empty upload
effect list); when the `file_id` is present, the Upload Executor is invoked
on the found share and the destination URL, and no reply is returned. -/
theorem upload_to_dispatch (shares : List Share) (config : Config) (fid : Nat)
    (url : String) :
    (get_share_by_id shares fid = none →
      handle_message (.ok shares) config (.UploadTo fid url) =
        (.result (.ok (some (.Error .FileDoesntExist
          (some (String.mk (lastSeg '/' url.data)))))), ⟨[fid], []⟩)) ∧
    (∀ f, get_share_by_id shares fid = some f →
      handle_message (.ok shares) config (.UploadTo fid url) =
        (.result (.ok none), ⟨[fid], [(f, url)]⟩)) := by
  constructor
  · intro h
    simp [handle_message, h, splitChar_getLast]
  · intro f h
    simp [handle_message, h]

/-- Witness for C5: both branches at concrete inputs (unknown id 5 against
an empty store; known id 5 against a store holding exactly that share). -/
theorem upload_to_dispatch_witness :
    handle_message (.ok []) sampleConfig (.UploadTo 5 "https://x/y/abc") =
      (.result (.ok (some (.Error .FileDoesntExist
        (some (String.mk (lastSeg '/' ("https://x/y/abc" : String).data)))))),
        ⟨[5], []⟩) ∧
    handle_message (.ok [⟨5, 100, 50, 10, "alice", "notes.txt"⟩]) sampleConfig
      (.UploadTo 5 "https://x/y/abc") =
      (.result (.ok none),
        ⟨[5], [(⟨5, 100, 50, 10, "alice", "notes.txt"⟩, "https://x/y/abc")]⟩) :=
  ⟨(upload_to_dispatch [] sampleConfig 5 "https://x/y/abc").1 rfl,
   (upload_to_dispatch [⟨5, 100, 50, 10, "alice", "notes.txt"⟩] sampleConfig 5
     "https://x/y/abc").2 ⟨5, 100, 50, 10, "alice", "notes.txt"⟩ rfl⟩

/-- C6: a `MetadataReq` for an unknown `file_id` yields
`Error` with kind `FileDoesntExist`; for a known id it yields a `MetadataRes`
whose fields are the stored share fields under the source casts, the casts
are exact for in-range values (`file_id` fitting `u32`, timestamps and size
nonnegative and below 2^64), and the request `upload_id` is echoed. -/
theorem metadata_req_mirrors_share (shares : List Share) (config : Config)
    (fid uid : Nat) :
    (get_share_by_id shares fid = none →
      handle_message (.ok shares) config (.MetadataReq fid uid) =
        (.result (.ok (some (.Error .FileDoesntExist none))), ⟨[fid], []⟩)) ∧
    (∀ f, get_share_by_id shares fid = some f → fid < 2 ^ 32 →
      0 ≤ f.exp → f.exp < 2 ^ 64 → 0 ≤ f.crt → f.crt < 2 ^ 64 →
      0 ≤ f.file_size → f.file_size < 2 ^ 64 →
      handle_message (.ok shares) config (.MetadataReq fid uid) =
        (.result (.ok (some (.MetadataRes (toU32 f.file_id) (toU64 f.exp)
          (toU64 f.crt) (toU64 f.file_size) f.user_name f.file_name uid))),
          ⟨[fid], []⟩) ∧
      toU32 f.file_id = fid ∧ (toU64 f.exp : Int) = f.exp ∧
      (toU64 f.crt : Int) = f.crt ∧
      (toU64 f.file_size : Int) = f.file_size) := by
  constructor
  · intro h
    simp [handle_message, h]
  · intro f hsome hfid hexp0 hexp1 hcrt0 hcrt1 hfs0 hfs1
    refine ⟨by simp [handle_message, hsome], ?_, ?_, ?_, ?_⟩
    · rw [get_share_by_id_file_id shares fid f hsome]
      unfold toU32
      rw [Int.emod_eq_of_lt (Int.natCast_nonneg fid) (by exact_mod_cast hfid)]
      simp
    · unfold toU64
      rw [Int.emod_eq_of_lt hexp0 hexp1, Int.toNat_of_nonneg hexp0]
    · unfold toU64
      rw [Int.emod_eq_of_lt hcrt0 hcrt1, Int.toNat_of_nonneg hcrt0]
    · unfold toU64
      rw [Int.emod_eq_of_lt hfs0 hfs1, Int.toNat_of_nonneg hfs0]

/-- Witness for C6: both branches at concrete inputs. -/
theorem metadata_req_mirrors_share_witness :
    handle_message (.ok []) sampleConfig (.MetadataReq 7 11) =
      (.result (.ok (some (.Error .FileDoesntExist none))), ⟨[7], []⟩) ∧
    (handle_message (.ok [⟨7, 200, 100, 42, "alice", "a.txt"⟩]) sampleConfig
        (.MetadataReq 7 11) =
      (.result (.ok (some (.MetadataRes
        (toU32 (Share.mk 7 200 100 42 "alice" "a.txt").file_id)
        (toU64 (Share.mk 7 200 100 42 "alice" "a.txt").exp)
        (toU64 (Share.mk 7 200 100 42 "alice" "a.txt").crt)
        (toU64 (Share.mk 7 200 100 42 "alice" "a.txt").file_size)
        "alice" "a.txt" 11))), ⟨[7], []⟩) ∧
      toU32 (Share.mk 7 200 100 42 "alice" "a.txt").file_id = 7 ∧
      (toU64 (Share.mk 7 200 100 42 "alice" "a.txt").exp : Int) = 200 ∧
      (toU64 (Share.mk 7 200 100 42 "alice" "a.txt").crt : Int) = 100 ∧
      (toU64 (Share.mk 7 200 100 42 "alice" "a.txt").file_size : Int) = 42) :=
  ⟨(metadata_req_mirrors_share [] sampleConfig 7 11).1 rfl,
   (metadata_req_mirrors_share [⟨7, 200, 100, 42, "alice", "a.txt"⟩]
       sampleConfig 7 11).2 ⟨7, 200, 100, 42, "alice", "a.txt"⟩ rfl
     (by norm_num) (by norm_num) (by norm_num) (by norm_num) (by norm_num)
     (by norm_num) (by norm_num)⟩

/-- C10: for every upload URL, including the empty string and slash-free
strings, `split('/').last()` yields `Some`, so the `expect` in the
`UploadTo` unknown-file branch never panics; the error reply reason is
`Some` of the substring after the last slash, and that substring is the
whole string when no slash occurs. -/
theorem upload_url_split_last_total (url : String) (shares : List Share)
    (config : Config) (fid : Nat) (h : get_share_by_id shares fid = none) :
    ((splitChar '/' url.data).getLast?).isSome = true ∧
    handle_message (.ok shares) config (.UploadTo fid url) =
      (.result (.ok (some (.Error .FileDoesntExist
        (some (String.mk (lastSeg '/' url.data)))))), ⟨[fid], []⟩) ∧
    (('/' ∉ url.data) → lastSeg '/' url.data = url.data) := by
  refine ⟨?_, ?_, ?_⟩
  · rw [splitChar_getLast]
    rfl
  · simp [handle_message, h, splitChar_getLast]
  · intro hns
    exact lastSeg_of_not_mem '/' url.data hns

/-- Witness for C10 at the empty upload URL, the extreme case for the
split. -/
theorem upload_url_split_last_total_witness :
    ((splitChar '/' ("" : String).data).getLast?).isSome = true ∧
    handle_message (.ok []) sampleConfig (.UploadTo 0 "") =
      (.result (.ok (some (.Error .FileDoesntExist
        (some (String.mk (lastSeg '/' ("" : String).data)))))), ⟨[0], []⟩) ∧
    (('/' ∉ ("" : String).data) → lastSeg '/' ("" : String).data =
      ("" : String).data) :=
  upload_url_split_last_total "" [] sampleConfig 0 rfl

/-- C2 (code bug evidence): with `max_upload_attempts = 3` and a destination
whose HTTP POST always fails at the transport level (every `spawn_blocking`
completes, every inner ureq result is an error), the `upload_file` loop
stops after exactly 1 attempt and never reaches the give-up log branch,
because the source matches `Ok(_)` on the join result; only join failures
(panics of the spawned task) are retried, and those are retried exactly
`max_upload_attempts` times. -/
theorem upload_retry_ignores_transport_failure :
    upload_file_loop 3 (fun _ => .joined false) 0 = .finished 1 false ∧
    upload_file_loop 3 (fun _ => .joinFailed) 0 = .finished 3 true := by
  constructor
  · rw [upload_file_loop]
  · rw [upload_file_loop]
    norm_num
    rw [upload_file_loop]
    norm_num
    rw [upload_file_loop]
    norm_num

/-- C3: at a sweep tick taken at time `now`, exactly the shares with
`exp < now` are deleted from the store (those with `now ≤ exp` all remain),
and, when the filesystem cooperates, the backing file of each deleted
record (`root/file_id`) is removed exactly once, in order, with the sweep
reporting success. -/
theorem expiry_sweep_exact (removeFile : String → Except AgentError Unit)
    (root : String) (now : Int) (table : List Share)
    (hfs : ∀ p, removeFile p = .ok ()) :
    (agent_remove_expired_shares removeFile root now table).1 =
      table.filter (fun s => !(decide (s.exp < now))) ∧
    (∀ s ∈ table, now ≤ s.exp →
      s ∈ (agent_remove_expired_shares removeFile root now table).1) ∧
    (agent_remove_expired_shares removeFile root now table).2.1 =
      (table.filter (fun s => decide (s.exp < now))).map
        (fun s => root ++ "/" ++ toString s.file_id) ∧
    (agent_remove_expired_shares removeFile root now table).2.2 = .ok () := by
  have h1 : (agent_remove_expired_shares removeFile root now table).1 =
      table.filter (fun s => !(decide (s.exp < now))) := by
    simp [agent_remove_expired_shares, remove_expired_shares_db]
  refine ⟨h1, ?_, ?_, ?_⟩
  · intro s hs hle
    rw [h1]
    refine List.mem_filter.mpr ⟨hs, ?_⟩
    simp only [Bool.not_eq_true', decide_eq_false_iff_not]
    omega
  · simp [agent_remove_expired_shares, remove_expired_shares_db,
      delete_share_files_all_ok removeFile root _ hfs]
  · simp [agent_remove_expired_shares, remove_expired_shares_db,
      delete_share_files_all_ok removeFile root _ hfs]

/-- Witness for C3 on a two-share table with one expired share at
`now = 100` and a cooperating filesystem. -/
theorem expiry_sweep_exact_witness :
    (agent_remove_expired_shares (fun _ => .ok ()) "/var/files" 100
      [⟨1, 50, 0, 10, "u", "a"⟩, ⟨2, 150, 0, 10, "u", "b"⟩]).1 =
      ([⟨1, 50, 0, 10, "u", "a"⟩, ⟨2, 150, 0, 10, "u", "b"⟩] :
        List Share).filter (fun s => !(decide (s.exp < 100))) ∧
    (∀ s ∈ ([⟨1, 50, 0, 10, "u", "a"⟩, ⟨2, 150, 0, 10, "u", "b"⟩] :
        List Share), (100 : Int) ≤ s.exp →
      s ∈ (agent_remove_expired_shares (fun _ => .ok ()) "/var/files" 100
        [⟨1, 50, 0, 10, "u", "a"⟩, ⟨2, 150, 0, 10, "u", "b"⟩]).1) ∧
    (agent_remove_expired_shares (fun _ => .ok ()) "/var/files" 100
      [⟨1, 50, 0, 10, "u", "a"⟩, ⟨2, 150, 0, 10, "u", "b"⟩]).2.1 =
      (([⟨1, 50, 0, 10, "u", "a"⟩, ⟨2, 150, 0, 10, "u", "b"⟩] :
        List Share).filter (fun s => decide (s.exp < 100))).map
        (fun s => "/var/files" ++ "/" ++ toString s.file_id) ∧
    (agent_remove_expired_shares (fun _ => .ok ()) "/var/files" 100
      [⟨1, 50, 0, 10, "u", "a"⟩, ⟨2, 150, 0, 10, "u", "b"⟩]).2.2 = .ok () :=
  expiry_sweep_exact (fun _ => .ok ()) "/var/files" 100
    [⟨1, 50, 0, 10, "u", "a"⟩, ⟨2, 150, 0, 10, "u", "b"⟩] (fun _ => rfl)

/-- C1: a handler invocation that returned an error does not abort the
session: the error drained from the response channel is recorded in `res`,
the iteration is `continued` rather than `exited`, the inbound data frame
of the same iteration is still decoded and dispatched to a new handler
task, and the rest of the trace is processed from the updated state. -/
theorem handler_error_does_not_abort_session
    (encodeF : Message → Except AgentError (List Nat))
    (sendF : List Nat → Except AgentError Unit) (s : WsState)
    (hchan : s.chan = []) (e : AgentError) (m : Message)
    (more : List IterInput) :
    runIter encodeF sendF s ⟨[.error e], .binary (.ok m)⟩ =
      .continued ⟨.error e, [], s.spawned ++ [m], s.outbound⟩ ∧
    runLoop encodeF sendF s (⟨[.error e], .binary (.ok m)⟩ :: more) =
      runLoop encodeF sendF ⟨.error e, [], s.spawned ++ [m], s.outbound⟩
        more := by
  have h1 : runIter encodeF sendF s ⟨[.error e], .binary (.ok m)⟩ =
      .continued ⟨.error e, [], s.spawned ++ [m], s.outbound⟩ := by
    simp [runIter, hchan, drainChan]
  exact ⟨h1, by simp [runLoop, h1]⟩

/-- Witness for C1: a share-store failure surfacing on the channel while an
`Ok` message arrives, from the initial session state. -/
theorem handler_error_does_not_abort_session_witness :
    runIter (fun _ => .ok []) (fun _ => .ok ()) initWsState
      ⟨[.error (.Other "share store failure")], .binary (.ok .Ok)⟩ =
      .continued ⟨.error (.Other "share store failure"), [],
        initWsState.spawned ++ [.Ok], initWsState.outbound⟩ ∧
    runLoop (fun _ => .ok []) (fun _ => .ok ()) initWsState
      [⟨[.error (.Other "share store failure")], .binary (.ok .Ok)⟩] =
      runLoop (fun _ => .ok []) (fun _ => .ok ())
        ⟨.error (.Other "share store failure"), [],
          initWsState.spawned ++ [.Ok], initWsState.outbound⟩ [] :=
  handler_error_does_not_abort_session (fun _ => .ok []) (fun _ => .ok ())
    initWsState rfl (.Other "share store failure") .Ok []

/-- C9: a close frame terminates the session cleanly: from any session
state, when the close iteration's drain and the final drain trip no inner
break (no pending handler errors and no failed sends), `handle_ws` returns
`Ok(false)` - a success value carrying the reconnect flag - and closes the
connection. -/
theorem close_frame_clean_termination
    (encodeF : Message → Except AgentError (List Nat))
    (sendF : List Nat → Except AgentError Unit) (s : WsState)
    (arr finalArr : List (Except AgentError (Option Message)))
    (h1 : DrainClean encodeF sendF (s.chan ++ arr))
    (h2 : DrainClean encodeF sendF finalArr) :
    (handle_ws_from encodeF sendF s [⟨arr, .close⟩] finalArr).res =
      .ok false ∧
    (handle_ws_from encodeF sendF s [⟨arr, .close⟩] finalArr).closed =
      true := by
  obtain ⟨out2, hd1⟩ := drainChan_clean encodeF sendF (s.chan ++ arr) h1
    s.res s.outbound
  obtain ⟨out3, hd2⟩ := drainChan_clean encodeF sendF finalArr h2
    (.ok false) out2
  have hiter : runIter encodeF sendF s ⟨arr, .close⟩ =
      .continued ⟨.ok false, [], s.spawned, out2⟩ := by
    simp [runIter, hd1]
  simp [handle_ws_from, runLoop, hiter, hd2, finishSession]

/-- Witness for C9: a close frame arriving in the initial session state
with empty channels. -/
theorem close_frame_clean_termination_witness :
    (handle_ws_from (fun _ => .ok []) (fun _ => .ok ()) initWsState
      [⟨[], .close⟩] []).res = .ok false ∧
    (handle_ws_from (fun _ => .ok []) (fun _ => .ok ()) initWsState
      [⟨[], .close⟩] []).closed = true :=
  close_frame_clean_termination (fun _ => .ok []) (fun _ => .ok ())
    initWsState [] [] (by simp [DrainClean, initWsState])
    (by simp [DrainClean])

end Riptide
